import Mathlib

/-!
Verification of the Cognify brain-volumetric analysis engine
(`src/atrophy/main.js`).

The JavaScript code is shallowly embedded: its numeric pipeline is modelled
with exact rational arithmetic (`ℚ`), except for the transcendental
normal-CDF approximation `normalCDF`, which is modelled over `ℝ` with
`Real.exp` / `Real.sqrt`.  JavaScript objects holding optional numbers are
modelled as `Option ℚ`; the JavaScript truthiness test `x && ...` on a
number is modelled by `truthy` (false for `null`/`undefined`/`0`).
Free-text report fields (`recommendation`, `description` prose) that no
computation inspects are omitted from the records.
-/

namespace Cognify

/-- JavaScript `Math.round`: round half towards positive infinity. -/
def jsRound (x : ℚ) : ℤ := ⌊x + 1/2⌋

/-- JavaScript `Math.round(x * 100) / 100` (two-decimal rounding). -/
def round2 (x : ℚ) : ℚ := (jsRound (x * 100) : ℚ) / 100

/-- JavaScript `Math.round(x * 1000) / 1000` (three-decimal rounding). -/
def round3 (x : ℚ) : ℚ := (jsRound (x * 1000) : ℚ) / 1000

/-- Patient sex, the two fixed tokens of the interface contract. -/
inductive Sex where
  | male
  | female
deriving DecidableEq

/-- `ICV_REFERENCE.mean` (mm³). -/
def icvRefMean : Sex → ℚ
  | .male => 1550000
  | .female => 1350000

/-- `ICV_REFERENCE.sd` (mm³). -/
def icvRefSd : Sex → ℚ
  | .male => 130000
  | .female => 110000

/-- `BPF_NORMATIVE.byAge[d].mean`, with the `|| 0.76` fallback of
`estimateICV` for a decade outside the table. -/
def bpfMeanByDecade (d : ℤ) : ℚ :=
  if d = 20 then 0.88
  else if d = 30 then 0.86
  else if d = 40 then 0.84
  else if d = 50 then 0.82
  else if d = 60 then 0.79
  else if d = 70 then 0.76
  else if d = 80 then 0.72
  else 0.76

/-- `Math.min(80, Math.max(20, Math.round(age / 10) * 10))`. -/
def ageDecade2080 (age : ℚ) : ℤ := min 80 (max 20 (jsRound (age / 10) * 10))

/-- ASCII lower-casing of one character (the region labels are ASCII, so
this agrees with JavaScript `toLowerCase`). -/
def charToLower (c : Char) : Char :=
  if c.isUpper then Char.ofNat (c.toNat + 32) else c

/-- Character-list version of `String.startsWith`. -/
def seqStartsWith : List Char → List Char → Bool
  | [], _ => true
  | _ :: _, [] => false
  | a :: as, b :: bs => a == b && seqStartsWith as bs

/-- Substring test on character lists (`hay.includes(needle)`). -/
def seqContains : List Char → List Char → Bool
  | [], needle => needle.isEmpty
  | a :: t, needle => seqStartsWith needle (a :: t) || seqContains t needle

/-- `region.toLowerCase().includes("ventricle")`. -/
def isVentricleRegion (region : String) : Bool :=
  seqContains (region.toList.map charToLower) "ventricle".toList

/-- Sum of the volumes whose region label does not contain "ventricle"
(`brainVolume` accumulator of `estimateICV`). -/
def brainVolumeOf (volumes : List (String × ℚ)) : ℚ :=
  ((volumes.filter (fun rv => !(isVentricleRegion rv.1))).map Prod.snd).sum

/-- Sum of the volumes whose region label contains "ventricle"
(`ventricleVolume` accumulator of `estimateICV`). -/
def ventricleVolumeOf (volumes : List (String × ℚ)) : ℚ :=
  ((volumes.filter (fun rv => isVentricleRegion rv.1)).map Prod.snd).sum

/-- `estimateICV(volumes, age, sex)` from `src/atrophy/main.js`:
BPF-based primary estimate, 50/50 blend with the anatomical estimate when
out of the sex-specific ±3 SD band, then the three ordered clamps and
rounding to integer mm³. -/
def estimateICV (volumes : List (String × ℚ)) (age : ℚ) (sex : Sex) : ℤ :=
  let brainVolume := brainVolumeOf volumes
  let ventricleVolume := ventricleVolumeOf volumes
  let segmentedTotal := brainVolume + ventricleVolume
  let expectedBPF := bpfMeanByDecade (ageDecade2080 age)
  let icvFromBPF := brainVolume / expectedBPF
  let icvFromAnatomical := segmentedTotal * 1.12
  let minICV := icvRefMean sex - 3 * icvRefSd sex
  let maxICV := icvRefMean sex + 3 * icvRefSd sex
  let est1 := if icvFromBPF < minICV ∨ icvFromBPF > maxICV
              then (icvFromBPF + icvFromAnatomical) / 2 else icvFromBPF
  let est2 := max est1 (segmentedTotal * 1.05)
  let est3 := min est2 maxICV
  let est4 := max est3 minICV
  jsRound est4

/-- The ICV estimate as claim C1 words it: primary estimate `icv_A`,
replaced by the average of `icv_A` and `segmentedTotal × 1.12` exactly when
outside mean ± 3 SD, then floor at `segmentedTotal × 1.05`, ceiling at the
upper bound, floor at the lower bound, rounded to the nearest integer. -/
def estimateICVSpec (volumes : List (String × ℚ)) (age : ℚ) (sex : Sex) : ℤ :=
  let icvA := brainVolumeOf volumes / bpfMeanByDecade (ageDecade2080 age)
  let segTotal := brainVolumeOf volumes + ventricleVolumeOf volumes
  let icvB := segTotal * 1.12
  let lo := icvRefMean sex - 3 * icvRefSd sex
  let hi := icvRefMean sex + 3 * icvRefSd sex
  let primary := if icvA < lo ∨ icvA > hi then (icvA + icvB) / 2 else icvA
  jsRound (max (min (max primary (segTotal * 1.05)) hi) lo)

/-- Regression coefficient record of `ICV_REGRESSION_COEFFICIENTS` entries. -/
structure RegressionCoef where
  b : ℚ
  r2 : ℚ
deriving DecidableEq

/-- `ICV_REGRESSION_COEFFICIENTS[region]` as a partial lookup. -/
def icvRegressionCoefficients (region : String) : Option RegressionCoef :=
  if region = "Hippocampus" then some ⟨0.0037, 0.15⟩
  else if region = "Thalamus" then some ⟨0.0082, 0.22⟩
  else if region = "Caudate" then some ⟨0.0045, 0.18⟩
  else if region = "Putamen" then some ⟨0.0058, 0.20⟩
  else if region = "Pallidum" then some ⟨0.0019, 0.14⟩
  else if region = "Amygdala" then some ⟨0.0018, 0.12⟩
  else if region = "Accumbens-area" then some ⟨0.0006, 0.10⟩
  else if region = "Lateral-Ventricle" then some ⟨0.0085, 0.08⟩
  else if region = "Inferior-Lateral-Ventricle" then some ⟨0.0008, 0.05⟩
  else if region = "Cerebral-White-Matter" then some ⟨0.28, 0.45⟩
  else if region = "Cerebral-Cortex" then some ⟨0.32, 0.50⟩
  else if region = "Cerebellum-Cortex" then some ⟨0.055, 0.25⟩
  else if region = "Cerebellum-White-Matter" then some ⟨0.015, 0.20⟩
  else if region = "Brain-Stem" then some ⟨0.012, 0.18⟩
  else if region = "VentralDC" then some ⟨0.0042, 0.16⟩
  else none

/-- `applyICVNormalization(volume, region, icv, sex)`: residual correction
`Vol - b × (ICV - ICV_mean)` floored at 0; identity for a region without a
tabulated coefficient. -/
def applyICVNormalization (volume : ℚ) (region : String) (icv : ℚ) (sex : Sex) : ℚ :=
  match icvRegressionCoefficients region with
  | none => volume
  | some coef => max 0 (volume - coef.b * (icv - icvRefMean sex))

/-- `HOC_NORMATIVE.byAge[d]` as `(mean, sd)`, with the `|| byAge[70]`
fallback of `calculateHOC`. -/
def hocNormByDecade (d : ℤ) : ℚ × ℚ :=
  if d = 50 then (0.92, 0.04)
  else if d = 60 then (0.88, 0.05)
  else if d = 70 then (0.82, 0.06)
  else if d = 80 then (0.75, 0.08)
  else (0.82, 0.06)

/-- `Math.min(80, Math.max(50, Math.round(age / 10) * 10))`. -/
def ageDecade5080 (age : ℚ) : ℤ := min 80 (max 50 (jsRound (age / 10) * 10))

/-- Horner form of the Abramowitz–Stegun degree-5 polynomial of `normalCDF`
in the variable `t = 1 / (1 + p·z)`. -/
def asPoly (t : ℝ) : ℝ :=
  ((((1.061405429 * t + -1.453152027) * t + 1.421413741) * t + -0.284496736) * t + 0.254829592) * t

/-- The polynomial-times-Gaussian factor of `normalCDF` as a function of the
scaled argument `w = |z| / √2`. -/
noncomputable def asDamped (w : ℝ) : ℝ :=
  asPoly (1 / (1 + 0.3275911 * w)) * Real.exp (-(w * w))

/-- `normalCDF(z)` from `src/atrophy/main.js`: the Abramowitz–Stegun
rational approximation of the standard normal CDF, with the sign split and
the substitution `z ← |z| / √2` exactly as the source writes them. -/
noncomputable def normalCDF (z : ℝ) : ℝ :=
  let a1 : ℝ := 0.254829592
  let a2 : ℝ := -0.284496736
  let a3 : ℝ := 1.421413741
  let a4 : ℝ := -1.453152027
  let a5 : ℝ := 1.061405429
  let p : ℝ := 0.3275911
  let sign : ℝ := if z < 0 then -1 else 1
  let za := |z| / Real.sqrt 2
  let t := 1 / (1 + p * za)
  let y := 1 - (((((a5 * t + a4) * t) + a3) * t + a2) * t + a1) * t * Real.exp (-(za * za))
  0.5 * (1 + sign * y)

/-- JavaScript `Math.round` on a real argument (used where the rounded
quantity involves `normalCDF`). -/
noncomputable def jsRoundR (x : ℝ) : ℤ := ⌊x + 1/2⌋

/-- Interpretation and conversion-risk band of an HOC value, the two
parallel if-chains over `HOC_NORMATIVE.interpretation` and
`HOC_NORMATIVE.conversionRisk` in `calculateHOC`:
`(label, description, risk, conversionRate)`. -/
def hocBand (hoc : ℚ) : String × String × String × String :=
  if hoc ≥ 0.80 then
    ("Normal", "No significant medial temporal atrophy", "Low", "~10% at 3 years")
  else if hoc ≥ 0.70 then
    ("Mild", "Mild medial temporal atrophy", "Moderate", "~25% at 3 years")
  else if hoc ≥ 0.60 then
    ("Moderate", "Moderate medial temporal atrophy - consider MCI", "High", "~50% at 3 years")
  else
    ("Severe", "Severe medial temporal atrophy - consistent with AD", "Very High", "~75% at 3 years")

/-- Return value of `calculateHOC`; a JavaScript field absent on one of the
two return paths is `none` on that path. -/
structure HOCResult where
  value : Option ℚ
  zscore : Option ℚ
  percentile : Option ℤ
  interpretation : String
  description : Option String
  conversionRisk : Option String
  conversionRate : Option String
  hippoVolume : Option ℚ
  ilvVolume : Option ℚ
  expected : Option ℚ

/-- `calculateHOC(volumes, age)`: the degenerate hippocampus-not-segmented
early return, else `HOC = hippo / (hippo + ILV)` with z-score, percentile
and band fields.  The function is total: the JavaScript code never throws
on any input, and neither does this model. -/
noncomputable def calculateHOC (volumes : List (String × ℚ)) (age : ℚ) : HOCResult :=
  let hippoVol := (volumes.lookup "Hippocampus").getD 0
  let ilvVol := (volumes.lookup "Inferior-Lateral-Ventricle").getD 0
  if hippoVol = 0 then
    { value := none, zscore := none, percentile := none,
      interpretation := "Unable to calculate - hippocampus not segmented",
      description := none, conversionRisk := none, conversionRate := none,
      hippoVolume := none, ilvVolume := none, expected := none }
  else
    let hoc := hippoVol / (hippoVol + ilvVol)
    let norm := hocNormByDecade (ageDecade5080 age)
    let zscore := (hoc - norm.1) / norm.2
    let band := hocBand hoc
    { value := some (round3 hoc),
      zscore := some (round2 zscore),
      percentile := some (jsRoundR (normalCDF (zscore : ℝ) * 100)),
      interpretation := band.1,
      description := some band.2.1,
      conversionRisk := some band.2.2.1,
      conversionRate := some band.2.2.2,
      hippoVolume := some hippoVol,
      ilvVolume := some ilvVol,
      expected := some norm.1 }

/-- First entry of a `(maxAge, threshold)` list with `age < maxAge`, else
the default: the lookup loop over the sorted `ageThresholds` entries in
`calculateMTAScore` / `calculateGCAScore`. -/
def firstThresholdBelow (entries : List (ℚ × ℚ)) (dflt : ℚ) (age : ℚ) : ℚ :=
  match entries with
  | [] => dflt
  | (maxAge, thr) :: rest =>
    if age < maxAge then thr else firstThresholdBelow rest dflt age

/-- `STANDARDIZED_SCALES.MTA.ageThresholds` sorted ascending by key. -/
def mtaAgeThresholdEntries : List (ℚ × ℚ) := [(65, 1), (75, 1.5), (85, 2), (100, 2.5)]

/-- The age-adjusted MTA abnormality threshold of `calculateMTAScore`:
`ageThreshold` is initialized to 2.0 and overwritten by the first table
entry with `age < maxAge`. -/
def mtaAgeThreshold (age : ℚ) : ℚ := firstThresholdBelow mtaAgeThresholdEntries 2 age

/-- `isAbnormal = mtaScore > ageThreshold` in `calculateMTAScore`. -/
def mtaIsAbnormal (score age : ℚ) : Bool := decide (score > mtaAgeThreshold age)

/-- The MTA age threshold as claim C3 words it: 1.0 below 65, 1.5 below 75,
2.0 below 85, and 2.5 for every age of at least 85. -/
def mtaAgeThresholdClaimed (age : ℚ) : ℚ :=
  if age < 65 then 1 else if age < 75 then 1.5 else if age < 85 then 2 else 2.5

/-- `interpretZScore(zscore, invertZscore)`: the effective z-score and the
five interpretation buckets. -/
def interpretZScore (zscore : ℚ) (invertZscore : Bool) : String :=
  let effectiveZ := if invertZscore then -zscore else zscore
  if effectiveZ ≥ -1.0 then "normal"
  else if effectiveZ ≥ -1.5 then "low-normal"
  else if effectiveZ ≥ -2.0 then "mild"
  else if effectiveZ ≥ -2.5 then "moderate"
  else "severe"

/-- JavaScript truthiness of a possibly-absent number: `undefined`, `null`
and `0` are falsy. -/
def truthy : Option ℚ → Bool
  | none => false
  | some v => if v = 0 then false else true

/-- JavaScript `o && o < c` on a possibly-absent number. -/
def truthyLt (o : Option ℚ) (c : ℚ) : Bool :=
  match o with
  | none => false
  | some v => if v = 0 then false else decide (v < c)

/-- JavaScript `o && o > c` on a possibly-absent number. -/
def truthyGt (o : Option ℚ) (c : ℚ) : Bool :=
  match o with
  | none => false
  | some v => if v = 0 then false else decide (v > c)

/-- JavaScript `o && o >= c` on a possibly-absent number. -/
def truthyGe (o : Option ℚ) (c : ℚ) : Bool :=
  match o with
  | none => false
  | some v => if v = 0 then false else decide (v ≥ c)

/-- JavaScript `o !== null && o < c` (explicit presence check). -/
def someLt (o : Option ℚ) (c : ℚ) : Bool :=
  match o with
  | none => false
  | some v => decide (v < c)

/-- JavaScript `o >= c` evaluated on a present number, false when absent. -/
def someGe (o : Option ℚ) (c : ℚ) : Bool :=
  match o with
  | none => false
  | some v => decide (v ≥ c)

/-- JavaScript `o > c` evaluated on a present number, false when absent. -/
def someGt (o : Option ℚ) (c : ℚ) : Bool :=
  match o with
  | none => false
  | some v => decide (v > c)

/-- A detected clinical pattern (`detectClinicalPatterns` list entry); the
free-text `recommendation` field, which no computation inspects, is
omitted. -/
structure Pattern where
  pattern : String
  confidence : String
  indicators : List String
deriving DecidableEq

/-- The values `detectClinicalPatterns` extracts from the analysis results:
effective z-scores of the four pattern regions, the raw
inferior-lateral-ventricle z-score, the HOC value and the BPF z-score. -/
structure PatternInputs where
  hippoZ : Option ℚ
  amygZ : Option ℚ
  caudateZ : Option ℚ
  wmZ : Option ℚ
  ilvZ : Option ℚ
  hoc : Option ℚ
  bpfZ : Option ℚ

/-- The Alzheimer block of `detectClinicalPatterns`: guard
`hippoZ !== undefined && hippoZ < -1.5`, point accumulation, pattern
emitted when the score reaches 3, confidence High from 5. -/
def adPattern (hippoZ amygZ hoc : Option ℚ) : Option Pattern :=
  match hippoZ with
  | none => none
  | some hz =>
    if hz < -1.5 then
      let base : ℕ × List String :=
        if hz < -2.0 then (3, ["significant hippocampal atrophy"])
        else if hz < -1.5 then (2, ["mild hippocampal atrophy"])
        else (0, [])
      let withHoc : ℕ × List String :=
        if truthyLt hoc 0.75 then (base.1 + 2, base.2 ++ ["low HOC score"]) else base
      let withAmyg : ℕ × List String :=
        if truthyLt amygZ (-1.5) then (withHoc.1 + 1, withHoc.2 ++ ["amygdala atrophy"])
        else withHoc
      if withAmyg.1 ≥ 3 then
        some { pattern := "Alzheimer\'s Disease Pattern",
               confidence := if withAmyg.1 ≥ 5 then "High" else "Moderate",
               indicators := withAmyg.2 }
      else none
    else none

/-- The frontotemporal block of `detectClinicalPatterns`. -/
def ftdPattern (caudateZ hippoZ : Option ℚ) : Option Pattern :=
  if truthyLt caudateZ (-2.0) &&
     (!(truthy hippoZ) || decide (hippoZ.getD 0 > caudateZ.getD 0 + 0.5)) then
    some { pattern := "Frontotemporal Dementia Pattern", confidence := "Low-Moderate",
           indicators := ["caudate atrophy exceeds hippocampal atrophy"] }
  else none

/-- The vascular block of `detectClinicalPatterns`. -/
def vascularPattern (wmZ : Option ℚ) : Option Pattern :=
  if truthyLt wmZ (-2.0) then
    some { pattern := "Vascular Dementia Pattern", confidence := "Moderate",
           indicators := ["significant white matter volume loss"] }
  else none

/-- The early-MCI block of `detectClinicalPatterns`: trigger
`hoc && hoc < 0.80 && (!hippoZ || hippoZ >= -1.5)`, base confidence from
how low HOC is, and the conditional bump on temporal horn enlargement
(`confidence === "Low" ? "Low-Moderate" : "Moderate"`). -/
def earlyMCIPattern (hoc hippoZ ilvZ : Option ℚ) : Option Pattern :=
  if truthyLt hoc 0.80 && (!(truthy hippoZ) || someGe hippoZ (-1.5)) then
    let h := hoc.getD 0
    let base : List String × String :=
      if h < 0.70 then (["moderate HOC reduction"], "Moderate")
      else if h < 0.75 then (["mild-moderate HOC reduction"], "Low-Moderate")
      else (["mild HOC reduction"], "Low")
    let withIlv : List String × String :=
      if truthyGt ilvZ 0.5 then
        (base.1 ++ ["temporal horn enlargement"],
         if base.2 = "Low" then "Low-Moderate" else "Moderate")
      else base
    some { pattern := "Early MCI / Subtle Medial Temporal Changes",
           confidence := withIlv.2, indicators := withIlv.1 }
  else none

/-- Guard of the high-confidence normal-aging block:
`bpfZ && bpfZ >= -1.5 && (!hippoZ || hippoZ >= -1.5) && (!hoc || hoc >= 0.80)`. -/
def normalAgingHighCond (bpfZ hippoZ hoc : Option ℚ) : Bool :=
  truthyGe bpfZ (-1.5) && (!(truthy hippoZ) || someGe hippoZ (-1.5))
    && (!(truthy hoc) || someGe hoc 0.80)

/-- The normal-aging pattern pushed by the high-confidence block. -/
def naHighPattern : Pattern :=
  { pattern := "Normal Aging Pattern", confidence := "High",
    indicators := ["volumes within expected range for age"] }

/-- The fallback normal-aging pattern pushed when the list is still empty. -/
def naModeratePattern : Pattern :=
  { pattern := "Normal Aging Pattern", confidence := "Moderate",
    indicators := ["volumes largely within expected range"] }

/-- `detectClinicalPatterns(results)`: the four disease blocks in source
order, then the two normal-aging fallbacks. -/
def detectClinicalPatterns (r : PatternInputs) : List Pattern :=
  let ps := (adPattern r.hippoZ r.amygZ r.hoc).toList
    ++ (ftdPattern r.caudateZ r.hippoZ).toList
    ++ (vascularPattern r.wmZ).toList
    ++ (earlyMCIPattern r.hoc r.hippoZ r.ilvZ).toList
  let ps2 := if ps.isEmpty && normalAgingHighCond r.bpfZ r.hippoZ r.hoc
             then ps ++ [naHighPattern] else ps
  if ps2.isEmpty then [naModeratePattern] else ps2

/-- Base early-MCI confidence as claim C4 words it. -/
def earlyMCIBase (h : ℚ) : String :=
  if h < 0.70 then "Moderate" else if h < 0.75 then "Low-Moderate" else "Low"

/-- One step up the ordinal confidence scale Low < Low-Moderate < Moderate
< High. -/
def raiseOneLevel (c : String) : String :=
  if c = "Low" then "Low-Moderate"
  else if c = "Low-Moderate" then "Moderate"
  else if c = "Moderate" then "High"
  else c

/-- Early-MCI confidence as claim C4 words it: the base level raised one
full ordinal level whenever the inferior-lateral-ventricle z-score exceeds
0.5. -/
def earlyMCIConfidenceClaimed (h : ℚ) (ilvZ : Option ℚ) : String :=
  if someGt ilvZ 0.5 then raiseOneLevel (earlyMCIBase h) else earlyMCIBase h

/-- Early-MCI confidence as the code computes it: the bump is capped at
Moderate (`Low → Low-Moderate`, anything else `→ Moderate`). -/
def earlyMCIConfidenceAmended (h : ℚ) (ilvZ : Option ℚ) : String :=
  if truthyGt ilvZ 0.5 then
    (if earlyMCIBase h = "Low" then "Low-Moderate" else "Moderate")
  else earlyMCIBase h

/-- Normal-aging confidence as claim C5 words it: High whenever BPF z ≥
-1.5, the hippocampal z is undefined or ≥ -1.5, and HOC is undefined or ≥
0.80; Moderate otherwise. -/
def normalAgingConfidenceClaimed (bpfZ hippoZ hoc : Option ℚ) : String :=
  if someGe bpfZ (-1.5) && (!(hippoZ.isSome) || someGe hippoZ (-1.5))
      && (!(hoc.isSome) || someGe hoc 0.80)
  then "High" else "Moderate"

/-- Inputs of the step-4 risk cascade of `analyzeAtrophy`: the mutually
exclusive severity counts, the tracked hippocampal effective z-score
(`null` when no hippocampus region was scored), the HOC value and the BPF
z-score. -/
structure RiskInputs where
  criticalCount : ℕ
  moderateCount : ℕ
  mildCount : ℕ
  hippoZ : Option ℚ
  hocValue : Option ℚ
  bpfZ : Option ℚ

/-- High-risk rule: `criticalAtrophyCount >= 2 || hippocampusZscore < -2.5
|| hocValue < 0.60` (with the null/truthiness guards of the source). -/
def riskHighCond (r : RiskInputs) : Bool :=
  decide (r.criticalCount ≥ 2) || someLt r.hippoZ (-2.5) || truthyLt r.hocValue 0.60

/-- Moderate-risk rule of the cascade. -/
def riskModerateCond (r : RiskInputs) : Bool :=
  decide (r.moderateCount ≥ 1) || decide (r.criticalCount ≥ 1)
    || someLt r.hippoZ (-2.0) || truthyLt r.hocValue 0.70

/-- Mild-risk rule of the cascade. -/
def riskMildCond (r : RiskInputs) : Bool :=
  decide (r.mildCount ≥ 2) || someLt r.hippoZ (-1.5)
    || truthyLt r.bpfZ (-1.5) || truthyLt r.hocValue 0.75

/-- Low-Normal rule of the cascade. -/
def riskLowNormalCond (r : RiskInputs) : Bool :=
  decide (r.mildCount ≥ 1) || someLt r.hippoZ (-1.0) || truthyLt r.hocValue 0.80

/-- The step-4 if/else-if cascade of `analyzeAtrophy` (verdict string
only). -/
def atrophyRisk (r : RiskInputs) : String :=
  if riskHighCond r then "High"
  else if riskModerateCond r then "Moderate"
  else if riskMildCond r then "Mild"
  else if riskLowNormalCond r then "Low-Normal"
  else "Normal"

/-- The verdict as claim C2 words it: the fixed rule list evaluated in
severity order, first matching rule wins, default Normal. -/
def atrophyRiskFirstMatch (r : RiskInputs) : String :=
  ((([(riskHighCond r, "High"), (riskModerateCond r, "Moderate"),
      (riskMildCond r, "Mild"), (riskLowNormalCond r, "Low-Normal")].find? Prod.fst).map
    Prod.snd)).getD "Normal"

/-- The step-3 severity counting of `analyzeAtrophy` over the effective
z-scores of the scored regions: `critical++` below -2.5, else `moderate++`
below -2.0, else `mild++` below -1.5. -/
def countAtrophyBuckets : List ℚ → ℕ × ℕ × ℕ
  | [] => (0, 0, 0)
  | z :: rest =>
    let c := countAtrophyBuckets rest
    if z < -2.5 then (c.1 + 1, c.2.1, c.2.2)
    else if z < -2.0 then (c.1, c.2.1 + 1, c.2.2)
    else if z < -1.5 then (c.1, c.2.1, c.2.2 + 1)
    else c

/-! Helper lemmas for the normal-CDF approximation. -/

theorem bracket_nonneg {s t : ℝ} (hs : 0 ≤ s) (hst : s ≤ t) (h1 : t ≤ 1) :
    0 ≤ 0.254829592 + -0.284496736*(s+t) + 1.421413741*(s^2+s*t+t^2)
      + -1.453152027*(s^3+s^2*t+s*t^2+t^3)
      + 1.061405429*(s^4+s^3*t+s^2*t^2+s*t^3+t^4) := by
  have ht : 0 ≤ t := le_trans hs hst
  have hts : 0 ≤ t - s := sub_nonneg.2 hst
  have h1t : 0 ≤ 1 - t := sub_nonneg.2 h1
  have h1s : 0 ≤ 1 - s := by linarith
  nlinarith [mul_nonneg hs ht, mul_nonneg hs hs, mul_nonneg ht ht,
    mul_nonneg hs h1s, mul_nonneg ht h1t, mul_nonneg hs h1t, mul_nonneg ht h1s,
    mul_nonneg h1s h1t, mul_nonneg h1s h1s, mul_nonneg h1t h1t,
    mul_nonneg hts h1t, mul_nonneg hts hs, mul_nonneg hts ht,
    sq_nonneg (s + t - 1), sq_nonneg (s - t), sq_nonneg (s + t),
    sq_nonneg (s*t - 1), sq_nonneg (s + t - s*t)]

theorem asPoly_mono {s t : ℝ} (hs : 0 ≤ s) (hst : s ≤ t) (h1 : t ≤ 1) :
    asPoly s ≤ asPoly t := by
  have hB := bracket_nonneg hs hst h1
  have hts : 0 ≤ t - s := sub_nonneg.2 hst
  have key : asPoly t - asPoly s =
      (t - s) * (0.254829592 + -0.284496736*(s+t) + 1.421413741*(s^2+s*t+t^2)
        + -1.453152027*(s^3+s^2*t+s*t^2+t^3)
        + 1.061405429*(s^4+s^3*t+s^2*t^2+s*t^3+t^4)) := by
    unfold asPoly; ring
  nlinarith [mul_nonneg hts hB]

theorem asPoly_zero : asPoly 0 = 0 := by norm_num [asPoly]

theorem asPoly_one : asPoly 1 = 0.999999999 := by norm_num [asPoly]

theorem asPoly_nonneg {t : ℝ} (h0 : 0 ≤ t) (h1 : t ≤ 1) : 0 ≤ asPoly t := by
  have := asPoly_mono le_rfl h0 h1
  rwa [asPoly_zero] at this

theorem asPoly_le_one {t : ℝ} (h0 : 0 ≤ t) (h1 : t ≤ 1) : asPoly t ≤ 1 := by
  have := asPoly_mono h0 h1 le_rfl
  rw [asPoly_one] at this
  linarith

theorem recip_mem {w : ℝ} (hw : 0 ≤ w) :
    0 < 1 / (1 + 0.3275911 * w) ∧ 1 / (1 + 0.3275911 * w) ≤ 1 := by
  have h1 : (0:ℝ) < 1 + 0.3275911 * w := by nlinarith
  constructor
  · positivity
  · rw [div_le_one h1]; nlinarith

theorem recip_antitone {w1 w2 : ℝ} (h0 : 0 ≤ w1) (h12 : w1 ≤ w2) :
    1 / (1 + 0.3275911 * w2) ≤ 1 / (1 + 0.3275911 * w1) := by
  have ha : (0:ℝ) < 1 + 0.3275911 * w1 := by nlinarith
  apply div_le_div_of_nonneg_left (by norm_num) ha
  nlinarith

theorem asDamped_antitone {w1 w2 : ℝ} (h0 : 0 ≤ w1) (h12 : w1 ≤ w2) :
    asDamped w2 ≤ asDamped w1 := by
  unfold asDamped
  have h0' : 0 ≤ w2 := le_trans h0 h12
  obtain ⟨hp1, hl1⟩ := recip_mem h0
  obtain ⟨hp2, hl2⟩ := recip_mem h0'
  have hPP : asPoly (1 / (1 + 0.3275911 * w2)) ≤ asPoly (1 / (1 + 0.3275911 * w1)) :=
    asPoly_mono (le_of_lt hp2) (recip_antitone h0 h12) hl1
  have hE : Real.exp (-(w2 * w2)) ≤ Real.exp (-(w1 * w1)) := by
    apply Real.exp_le_exp.2
    have := mul_self_le_mul_self h0 h12
    linarith
  exact mul_le_mul hPP hE (le_of_lt (Real.exp_pos _))
    (asPoly_nonneg (le_of_lt hp1) hl1)

theorem asDamped_nonneg {w : ℝ} (hw : 0 ≤ w) : 0 ≤ asDamped w := by
  unfold asDamped
  obtain ⟨hp, hl⟩ := recip_mem hw
  exact mul_nonneg (asPoly_nonneg (le_of_lt hp) hl) (le_of_lt (Real.exp_pos _))

theorem asDamped_le_one {w : ℝ} (hw : 0 ≤ w) : asDamped w ≤ 1 := by
  unfold asDamped
  obtain ⟨hp, hl⟩ := recip_mem hw
  have h1 : asPoly (1 / (1 + 0.3275911 * w)) ≤ 1 := asPoly_le_one (le_of_lt hp) hl
  have h2 : Real.exp (-(w * w)) ≤ 1 := by
    rw [Real.exp_le_one_iff]
    nlinarith [mul_self_nonneg w]
  have h0 : 0 ≤ asPoly (1 / (1 + 0.3275911 * w)) := asPoly_nonneg (le_of_lt hp) hl
  nlinarith

theorem normalCDF_eq_of_nonneg {z : ℝ} (hz : 0 ≤ z) :
    normalCDF z = 1 - asDamped (z / Real.sqrt 2) / 2 := by
  unfold normalCDF asDamped asPoly
  rw [if_neg (not_lt.2 hz), abs_of_nonneg hz]
  ring

theorem normalCDF_eq_of_neg {z : ℝ} (hz : z < 0) :
    normalCDF z = asDamped (-z / Real.sqrt 2) / 2 := by
  unfold normalCDF asDamped asPoly
  rw [if_pos hz, abs_of_neg hz]
  ring

theorem sqrt2_pos : (0:ℝ) < Real.sqrt 2 := Real.sqrt_pos.2 (by norm_num)

theorem normalCDF_mono_of_le {z1 z2 : ℝ} (h : z1 ≤ z2) : normalCDF z1 ≤ normalCDF z2 := by
  rcases lt_or_le z1 0 with h1 | h1
  · rcases lt_or_le z2 0 with h2 | h2
    · rw [normalCDF_eq_of_neg h1, normalCDF_eq_of_neg h2]
      have hw2 : 0 ≤ -z2 / Real.sqrt 2 := by
        apply div_nonneg (by linarith) (le_of_lt sqrt2_pos)
      have hw12 : -z2 / Real.sqrt 2 ≤ -z1 / Real.sqrt 2 :=
        (div_le_div_iff_of_pos_right sqrt2_pos).2 (by linarith)
      have := asDamped_antitone hw2 hw12
      linarith
    · rw [normalCDF_eq_of_neg h1, normalCDF_eq_of_nonneg h2]
      have hw1 : 0 ≤ -z1 / Real.sqrt 2 := by
        apply div_nonneg (by linarith) (le_of_lt sqrt2_pos)
      have hw2 : 0 ≤ z2 / Real.sqrt 2 := div_nonneg h2 (le_of_lt sqrt2_pos)
      have hA := asDamped_le_one hw1
      have hB := asDamped_le_one hw2
      have hC := asDamped_nonneg hw1
      have hD := asDamped_nonneg hw2
      linarith
  · have h2 : 0 ≤ z2 := le_trans h1 h
    rw [normalCDF_eq_of_nonneg h1, normalCDF_eq_of_nonneg h2]
    have hw1 : 0 ≤ z1 / Real.sqrt 2 := div_nonneg h1 (le_of_lt sqrt2_pos)
    have hw12 : z1 / Real.sqrt 2 ≤ z2 / Real.sqrt 2 :=
      (div_le_div_iff_of_pos_right sqrt2_pos).2 h
    have := asDamped_antitone hw1 hw12
    linarith

theorem normalCDF_zero_val : normalCDF 0 = 0.5000000005 := by
  have h : normalCDF 0 = 1 - asDamped 0 / 2 := by
    have := normalCDF_eq_of_nonneg (le_refl (0:ℝ))
    simpa using this
  have h0 : asDamped 0 = 0.999999999 := by
    unfold asDamped
    norm_num [asPoly]
  rw [h, h0]
  norm_num

/-! The claim theorems. -/

/-- Claim C1: for every volume observation, age and sex, `estimateICV`
partitions volumes by the case-insensitive "ventricle" label test, takes
`icv_A = parenchymal / expectedBPF` at the clamped nearest age decade,
blends with `segmentedTotal × 1.12` exactly when `icv_A` is outside the
sex-specific mean ± 3 SD band, applies the floor at `segmentedTotal × 1.05`,
the ceiling at the upper bound, the floor at the lower bound, in that
order, and rounds to the nearest integer mm³. -/
theorem estimateICV_matches_spec (volumes : List (String × ℚ)) (age : ℚ) (sex : Sex) :
    estimateICV volumes age sex = estimateICVSpec volumes age sex := by
  rfl

/-- Claim C9: the normal-CDF approximation satisfies `Φ(0) = 0.5` to within
`1e-6` (in fact `Φ(0) = 0.5000000005` exactly in the real-number model) and
is monotonically non-decreasing in its argument. -/
theorem normalCDF_half_and_monotone :
    |normalCDF 0 - 0.5| ≤ 1e-6 ∧
    ∀ z1 z2 : ℝ, z1 ≤ z2 → normalCDF z1 ≤ normalCDF z2 := by
  constructor
  · rw [normalCDF_zero_val]
    rw [abs_of_nonneg (by norm_num)]
    norm_num
  · intro z1 z2 h
    exact normalCDF_mono_of_le h

/-- Claim C3 (code slip at age ≥ 100): the lookup loop of
`calculateMTAScore` leaves the threshold at its initialization value 2.0
for every age of at least 100, although the table comment documents 2.5 for
every age of at least 85; below 100 the code matches the claim, and a score
is abnormal exactly when it exceeds the threshold. -/
theorem mtaAgeThreshold_at_100 :
    mtaAgeThreshold 100 = 2 ∧ mtaAgeThresholdClaimed 100 = 2.5 ∧ (2 : ℚ) ≠ 2.5 ∧
    (∀ age : ℚ, age < 100 → mtaAgeThreshold age = mtaAgeThresholdClaimed age) ∧
    ∀ score age : ℚ, mtaIsAbnormal score age = true ↔ score > mtaAgeThreshold age := by
  refine ⟨?_, ?_, ?_, ?_, ?_⟩
  · norm_num [mtaAgeThreshold, mtaAgeThresholdEntries, firstThresholdBelow]
  · norm_num [mtaAgeThresholdClaimed]
  · norm_num
  · intro age hage
    simp only [mtaAgeThreshold, mtaAgeThresholdEntries, firstThresholdBelow,
      mtaAgeThresholdClaimed]
    split_ifs <;> first | rfl | linarith
  · intro score age
    simp [mtaIsAbnormal]

/-- Claim C6: the interpretation buckets of `interpretZScore` are a
function of the effective z-score alone, with boundary values -1.0, -1.5,
-2.0, -2.5 each belonging to the better bucket. -/
theorem interpretZScore_buckets :
    (∀ z : ℚ, ∀ invert : Bool,
      interpretZScore z invert = interpretZScore (if invert then -z else z) false) ∧
    ∀ e : ℚ,
      (interpretZScore e false = "normal" ↔ -1.0 ≤ e) ∧
      (interpretZScore e false = "low-normal" ↔ -1.5 ≤ e ∧ e < -1.0) ∧
      (interpretZScore e false = "mild" ↔ -2.0 ≤ e ∧ e < -1.5) ∧
      (interpretZScore e false = "moderate" ↔ -2.5 ≤ e ∧ e < -2.0) ∧
      (interpretZScore e false = "severe" ↔ e < -2.5) := by
  constructor
  · intro z invert
    cases invert <;> rfl
  · intro e
    have unf : ∀ x : ℚ, interpretZScore x false =
        (if x ≥ -1.0 then "normal"
         else if x ≥ -1.5 then "low-normal"
         else if x ≥ -2.0 then "mild"
         else if x ≥ -2.5 then "moderate"
         else "severe") := fun x => rfl
    refine ⟨?_, ?_, ?_, ?_, ?_⟩ <;> rw [unf] <;> split_ifs with a b c d <;>
      first
        | (exact iff_of_true rfl (by constructor <;> linarith))
        | (exact iff_of_true rfl (by linarith))
        | (exact iff_of_false (by decide) (by rintro ⟨x, y⟩; linarith))
        | (exact iff_of_false (by decide) (by intro x; linarith))

/-- Claim C8: for a region with a tabulated regression coefficient, any
sex and any non-negative volume, normalization at the sex-specific
reference mean ICV returns the volume unchanged: the residual term is
zero and the floor at zero is inert. -/
theorem applyICVNormalization_at_icv_mean (region : String) (c : RegressionCoef)
    (hc : icvRegressionCoefficients region = some c) (sex : Sex) (volume : ℚ)
    (hv : 0 ≤ volume) :
    applyICVNormalization volume region (icvRefMean sex) sex = volume := by
  unfold applyICVNormalization
  rw [hc]
  simp [max_eq_right hv]

/-- Witness for C8: the Hippocampus coefficient row, male reference mean,
volume 5000 mm³. -/
theorem applyICVNormalization_at_icv_mean_witness :
    applyICVNormalization 5000 "Hippocampus" (icvRefMean .male) .male = 5000 :=
  applyICVNormalization_at_icv_mean "Hippocampus" ⟨0.0037, 0.15⟩
    (by norm_num [icvRegressionCoefficients]) .male 5000 (by norm_num)

/-- Claim C7: with hippocampus volume 0 (or absent, which the `|| 0`
default also maps to 0), `calculateHOC` returns the degenerate record:
`value = null`, a fixed explanatory interpretation string, and none of the
z-score, percentile, conversion-risk or other computed fields.  The model
is a total function, matching the source, which never throws here. -/
theorem calculateHOC_hippo_zero (volumes : List (String × ℚ)) (age : ℚ)
    (h : (volumes.lookup "Hippocampus").getD 0 = 0) :
    calculateHOC volumes age =
      { value := none, zscore := none, percentile := none,
        interpretation := "Unable to calculate - hippocampus not segmented",
        description := none, conversionRisk := none, conversionRate := none,
        hippoVolume := none, ilvVolume := none, expected := none } := by
  unfold calculateHOC
  simp [h]

/-- Witness for C7: a volume observation without a hippocampus entry. -/
theorem calculateHOC_hippo_zero_witness :
    calculateHOC [("Cerebral-Cortex", 500000)] 70 =
      { value := none, zscore := none, percentile := none,
        interpretation := "Unable to calculate - hippocampus not segmented",
        description := none, conversionRisk := none, conversionRate := none,
        hippoVolume := none, ilvVolume := none, expected := none } :=
  calculateHOC_hippo_zero _ _ (by simp [List.lookup])

/-- Claim C10: with hippocampus volume positive and
inferior-lateral-ventricle volume non-negative, the HOC value is present
and equals `hippo / (hippo + ILV)` rounded to three decimals, a quantity
between 0 and 1 inclusive. -/
theorem calculateHOC_value_in_unit (volumes : List (String × ℚ)) (age : ℚ)
    (hpos : 0 < (volumes.lookup "Hippocampus").getD 0)
    (hilv : 0 ≤ (volumes.lookup "Inferior-Lateral-Ventricle").getD 0) :
    ∃ v : ℚ,
      (calculateHOC volumes age).value = some v ∧
      v = round3 ((volumes.lookup "Hippocampus").getD 0 /
        ((volumes.lookup "Hippocampus").getD 0
          + (volumes.lookup "Inferior-Lateral-Ventricle").getD 0)) ∧
      0 ≤ v ∧ v ≤ 1 := by
  have hne : (volumes.lookup "Hippocampus").getD 0 ≠ 0 := ne_of_gt hpos
  have hsum : 0 < (volumes.lookup "Hippocampus").getD 0
      + (volumes.lookup "Inferior-Lateral-Ventricle").getD 0 := by linarith
  have hhoc0 : 0 < (volumes.lookup "Hippocampus").getD 0 /
      ((volumes.lookup "Hippocampus").getD 0
        + (volumes.lookup "Inferior-Lateral-Ventricle").getD 0) := div_pos hpos hsum
  have hhoc1 : (volumes.lookup "Hippocampus").getD 0 /
      ((volumes.lookup "Hippocampus").getD 0
        + (volumes.lookup "Inferior-Lateral-Ventricle").getD 0) ≤ 1 := by
    rw [div_le_one hsum]; linarith
  refine ⟨_, ?_, rfl, ?_, ?_⟩
  · unfold calculateHOC
    simp [hne]
  · unfold round3 jsRound
    have hf : (0:ℤ) ≤ ⌊(volumes.lookup "Hippocampus").getD 0 /
        ((volumes.lookup "Hippocampus").getD 0
          + (volumes.lookup "Inferior-Lateral-Ventricle").getD 0) * 1000 + 1/2⌋ :=
      Int.floor_nonneg.2 (by nlinarith)
    have : (0:ℚ) ≤ (⌊(volumes.lookup "Hippocampus").getD 0 /
        ((volumes.lookup "Hippocampus").getD 0
          + (volumes.lookup "Inferior-Lateral-Ventricle").getD 0) * 1000 + 1/2⌋ : ℚ) := by
      exact_mod_cast hf
    linarith
  · unfold round3 jsRound
    have hf : ⌊(volumes.lookup "Hippocampus").getD 0 /
        ((volumes.lookup "Hippocampus").getD 0
          + (volumes.lookup "Inferior-Lateral-Ventricle").getD 0) * 1000 + 1/2⌋ < 1001 :=
      Int.floor_lt.2 (by push_cast; nlinarith)
    have hle : (⌊(volumes.lookup "Hippocampus").getD 0 /
        ((volumes.lookup "Hippocampus").getD 0
          + (volumes.lookup "Inferior-Lateral-Ventricle").getD 0) * 1000 + 1/2⌋ : ℚ) ≤ 1000 := by
      have : ⌊(volumes.lookup "Hippocampus").getD 0 /
          ((volumes.lookup "Hippocampus").getD 0
            + (volumes.lookup "Inferior-Lateral-Ventricle").getD 0) * 1000 + 1/2⌋ ≤ 1000 := by
        omega
      exact_mod_cast this
    linarith

/-- Witness for C10: hippocampus 6000 mm³, inferior lateral ventricle
1500 mm³. -/
theorem calculateHOC_value_in_unit_witness :
    ∃ v : ℚ,
      (calculateHOC [("Hippocampus", 6000), ("Inferior-Lateral-Ventricle", 1500)] 70).value
        = some v ∧
      v = round3 ((([("Hippocampus", (6000:ℚ)),
            ("Inferior-Lateral-Ventricle", 1500)].lookup "Hippocampus").getD 0) /
        ((([("Hippocampus", (6000:ℚ)),
            ("Inferior-Lateral-Ventricle", 1500)].lookup "Hippocampus").getD 0)
          + (([("Hippocampus", (6000:ℚ)),
            ("Inferior-Lateral-Ventricle", 1500)].lookup "Inferior-Lateral-Ventricle").getD 0))) ∧
      0 ≤ v ∧ v ≤ 1 :=
  calculateHOC_value_in_unit _ _ (by decide) (by decide)

/-- Counterexample to claim C4 as stated: with HOC 0.65 the base
confidence is Moderate, and with an inferior-lateral-ventricle z-score of
1 the claim raises it one level to High, but the code caps the bump at
Moderate. -/
theorem earlyMCI_raise_cap_counterexample :
    (earlyMCIPattern (some 0.65) none (some 1)).map Pattern.confidence = some "Moderate" ∧
    earlyMCIConfidenceClaimed 0.65 (some 1) = "High" ∧
    ("Moderate" : String) ≠ "High" := by
  refine ⟨?_, ?_, by decide⟩
  · norm_num [earlyMCIPattern, truthyLt, truthy, someGe, truthyGt]
    decide
  · norm_num [earlyMCIConfidenceClaimed, someGt, raiseOneLevel, earlyMCIBase]
    decide

/-- Claim C4 as amended: whenever the early-MCI pattern triggers (`hoc`
truthy and below 0.80, hippocampal effective z absent/falsy or at least
-1.5), its confidence is the base level (<0.70 → Moderate, <0.75 →
Low-Moderate, else Low) bumped on temporal horn enlargement
(inferior-lateral-ventricle z > 0.5) from Low to Low-Moderate and
otherwise to Moderate — the bump never reaches High. -/
theorem earlyMCIPattern_confidence (hoc hippoZ ilvZ : Option ℚ) :
    (earlyMCIPattern hoc hippoZ ilvZ).map Pattern.confidence =
      (if truthyLt hoc 0.80 && (!(truthy hippoZ) || someGe hippoZ (-1.5))
       then some (earlyMCIConfidenceAmended (hoc.getD 0) ilvZ)
       else none) := by
  unfold earlyMCIPattern earlyMCIConfidenceAmended earlyMCIBase
  cases hg : (truthyLt hoc 0.80 && (!(truthy hippoZ) || someGe hippoZ (-1.5))) <;>
    simp only [hg, Bool.false_eq_true, if_false, if_true, Option.map_none,
      Option.map_some]
  · rfl
  · by_cases h7 : hoc.getD 0 < 0.70 <;> by_cases h75 : hoc.getD 0 < 0.75 <;>
      cases hil : truthyGt ilvZ 0.5 <;>
      simp [h7, h75, hil]

/-- Claim C5 (code slip): with BPF z-score exactly 0, normal hippocampal
z and normal HOC and no other pattern fired, the claim expects the
Normal-Aging pattern with confidence High, but the truthiness guard
`bpfZ && ...` makes the zero z-score falsy and the code emits the
Moderate-confidence fallback instead. -/
theorem normalAging_bpf_zero :
    detectClinicalPatterns
      { hippoZ := some 0, amygZ := none, caudateZ := none, wmZ := none,
        ilvZ := none, hoc := some 0.85, bpfZ := some 0 } = [naModeratePattern] ∧
    naModeratePattern.confidence = "Moderate" ∧
    normalAgingConfidenceClaimed (some 0) (some 0) (some 0.85) = "High" := by
  refine ⟨?_, rfl, ?_⟩
  · norm_num [detectClinicalPatterns, adPattern, ftdPattern, vascularPattern,
      earlyMCIPattern, normalAgingHighCond, truthy, truthyLt, truthyGe, someGe]
  · norm_num [normalAgingConfidenceClaimed, someGe]

/-- Claim C2 as amended: the verdict is the first matching rule in the
fixed order High, Moderate, Mild, Low-Normal, Normal; the severity counts
are mutually exclusive (each effective z-score is counted only in the most
severe bucket it qualifies for); and a report meeting a Moderate and a
Mild condition while meeting no High condition gets the verdict
Moderate. -/
theorem atrophyRisk_cascade_order :
    (∀ r : RiskInputs, atrophyRisk r = atrophyRiskFirstMatch r) ∧
    (∀ zs : List ℚ, countAtrophyBuckets zs =
      (zs.countP (fun z => decide (z < -2.5)),
       zs.countP (fun z => decide (-2.5 ≤ z ∧ z < -2.0)),
       zs.countP (fun z => decide (-2.0 ≤ z ∧ z < -1.5)))) ∧
    (∀ r : RiskInputs, riskModerateCond r = true → riskMildCond r = true →
      riskHighCond r = false → atrophyRisk r = "Moderate") := by
  refine ⟨?_, ?_, ?_⟩
  · intro r
    unfold atrophyRisk atrophyRiskFirstMatch
    cases hH : riskHighCond r <;> cases hM : riskModerateCond r <;>
      cases hMi : riskMildCond r <;> cases hL : riskLowNormalCond r <;>
      simp [hH, hM, hMi, hL, List.find?]
  · intro zs
    induction zs with
    | nil => simp [countAtrophyBuckets]
    | cons z t ih =>
      simp only [countAtrophyBuckets, ih, List.countP_cons]
      by_cases h1 : z < -2.5
      · have h2 : z < -2.0 := by linarith
        have h3 : z < -1.5 := by linarith
        have h4 : ¬(-2.5 ≤ z) := not_le.2 h1
        simp [h1, h2, h3, h4]
      · by_cases h2 : z < -2.0
        · have h3 : z < -1.5 := by linarith
          have h5 : (-2.5:ℚ) ≤ z := not_lt.1 h1
          have h6 : ¬(-2.0 ≤ z) := not_le.2 h2
          simp [h1, h2, h3, h5, h6]
        · by_cases h3 : z < -1.5
          · have h5 : (-2.0:ℚ) ≤ z := not_lt.1 h2
            simp [h1, h2, h3, h5]
          · have h5 : (-2.0:ℚ) ≤ z := not_lt.1 h2
            simp [h1, h2, h3]
  · intro r h1 h2 h3
    unfold atrophyRisk
    simp [h1, h3]

/-- Witness for the conditional part of C2: a report with one moderate
region (a Moderate condition) and hippocampal effective z -1.6 (a Mild
condition) meets no High condition and gets verdict Moderate. -/
theorem atrophyRisk_cascade_order_witness :
    atrophyRisk ⟨0, 1, 0, some (-1.6), none, none⟩ = "Moderate" :=
  atrophyRisk_cascade_order.2.2 ⟨0, 1, 0, some (-1.6), none, none⟩
    (by norm_num [riskModerateCond, someLt, truthyLt])
    (by norm_num [riskMildCond, someLt, truthyLt])
    (by norm_num [riskHighCond, someLt, truthyLt])

/-- Counterexample to the literal universal reading of C2: this report
meets a Moderate condition (one or more critical regions) and a Mild
condition (hippocampal z below -1.5) simultaneously, yet the verdict is
High, because a High condition (two critical regions) also matches
first. -/
theorem atrophyRisk_precedence_counterexample :
    riskModerateCond ⟨2, 0, 0, some (-3), some 0.85, some 0⟩ = true ∧
    riskMildCond ⟨2, 0, 0, some (-3), some 0.85, some 0⟩ = true ∧
    atrophyRisk ⟨2, 0, 0, some (-3), some 0.85, some 0⟩ = "High" ∧
    ("High" : String) ≠ "Moderate" := by
  refine ⟨?_, ?_, ?_, by decide⟩ <;>
    norm_num [riskModerateCond, riskMildCond, atrophyRisk, riskHighCond,
      someLt, truthyLt]

end Cognify
